import Mathlib

/-!
Verification of the index/primitive-source abstraction and the pixel-buffer staging
object of the glium fork (src/src/index/mod.rs and src/src/pixel_buffer.rs).

The two source files are embedded shallowly: pure Rust functions become Lean
functions, the mutation performed by `store_infos` becomes explicit state passing
on a `PixelBuffer` record, and a call that may panic returns a `ReadResult` value
distinguishing a panic from a normal return. External collaborators (the `version`
module, the GPU buffer resource, the pixel format, the sink conversion) are
modelled from the spec where noted.
-/

namespace Glium

/-- OpenGL API family reported by the capability source (`version::Api` of this
repository; the module is not under src/, only the two variants named by the
source are used). -/
inductive Api where
  | Gl
  | GlEs
deriving DecidableEq, Repr

/-- Backend version reported by the capability source: api family, major, minor
(spec section 6: `get_version() -> (api, major, minor)`). -/
structure Version where
  api : Api
  major : Nat
  minor : Nat
deriving DecidableEq, Repr

/-- Modelled from the spec: the ordering on `Version` lives in the repository's
`version` module, which is not under src/. The spec (sections 4.1, 4.2, 8)
phrases every support predicate as a comparison of the reported version against
a (major, minor) threshold, so the comparison is lexicographic on major then
minor. -/
def Version.atLeast (v : Version) (major minor : Nat) : Bool :=
  decide (major < v.major) || (v.major == major && decide (minor ≤ v.minor))

/-- Extension flags consulted by the support predicates of src/src/index/mod.rs
(spec section 6: `get_extensions() -> set of named boolean flags`). -/
structure Extensions where
  gl_arb_geometry_shader4 : Bool
  gl_ext_geometry_shader4 : Bool
  gl_ext_geometry_shader : Bool
  gl_arb_tessellation_shader : Bool
deriving DecidableEq, Repr

/-- Capability source collaborator (`CapabilitiesSource`): exposes the version
and the extension flags. -/
structure Capabilities where
  get_version : Version
  get_extensions : Extensions
deriving DecidableEq, Repr

/-- Embedding of `PrimitiveType` (src/src/index/mod.rs, lines 105-134). The
`vertices_per_patch` field is a u16 in the source; no claim depends on its
width, so it is a `Nat` here. -/
inductive PrimitiveType where
  | Points
  | LinesList
  | LinesListAdjacency
  | LineStrip
  | LineStripAdjacency
  | LineLoop
  | TrianglesList
  | TrianglesListAdjacency
  | TriangleStrip
  | TriangleStripAdjacency
  | TriangleFan
  | Patches (vertices_per_patch : Nat)
deriving DecidableEq, Repr

/-- Embedding of `PrimitiveType::is_supported` (src/src/index/mod.rs, lines
138-157): baseline topologies are always true; adjacency topologies compare the
version against (3,0) and consult three geometry-shader extensions; patches
compare against (4,0) and consult the tessellation extension. -/
def PrimitiveType.is_supported (p : PrimitiveType) (caps : Capabilities) : Bool :=
  match p with
  | .Points | .LinesList | .LineStrip | .LineLoop
  | .TrianglesList | .TriangleStrip | .TriangleFan => true
  | .LinesListAdjacency | .LineStripAdjacency
  | .TrianglesListAdjacency | .TriangleStripAdjacency =>
      caps.get_version.atLeast 3 0 ||
      caps.get_extensions.gl_arb_geometry_shader4 ||
      caps.get_extensions.gl_ext_geometry_shader4 ||
      caps.get_extensions.gl_ext_geometry_shader
  | .Patches _ =>
      caps.get_version.atLeast 4 0 ||
      caps.get_extensions.gl_arb_tessellation_shader

/-- Support condition for adjacency topologies written from the spec's words
(section 8): version at least (3,0) or one of the three named geometry-shader
extensions present. Stated separately from the code's `is_supported` so the two
can be compared. -/
def specAdjacencySupported (caps : Capabilities) : Prop :=
  caps.get_version.atLeast 3 0 = true ∨
  caps.get_extensions.gl_arb_geometry_shader4 = true ∨
  caps.get_extensions.gl_ext_geometry_shader4 = true ∨
  caps.get_extensions.gl_ext_geometry_shader = true

/-- Support condition for the patch topology written from the spec's words
(section 8): version at least (4,0) or the tessellation extension present. -/
def specPatchesSupported (caps : Capabilities) : Prop :=
  caps.get_version.atLeast 4 0 = true ∨
  caps.get_extensions.gl_arb_tessellation_shader = true

/-- Embedding of `IndexType` (src/src/index/mod.rs, lines 208-215). -/
inductive IndexType where
  | U8
  | U16
  | U32
deriving DecidableEq, Repr

/-- Embedding of `IndexType::get_size` (src/src/index/mod.rs, lines 220-226):
`mem::size_of` of u8, u16, u32 respectively. -/
def IndexType.get_size : IndexType → Nat
  | .U8 => 1
  | .U16 => 2
  | .U32 => 4

/-- Embedding of `IndicesSource<'a>` (src/src/index/mod.rs, lines 52-89). The
borrowed `BufferAnySlice<'a>` buffer views are an out-of-scope collaborator and
stay abstract as the type parameter `β`. -/
inductive IndicesSource (β : Type) where
  | IndexBuffer (buffer : β) (data_type : IndexType) (primitives : PrimitiveType)
  | MultidrawArray (buffer : β) (primitives : PrimitiveType)
  | MultidrawElement (commands : β) (indices : β) (data_type : IndexType)
      (primitives : PrimitiveType)
  | NoIndices (primitives : PrimitiveType)
deriving DecidableEq

/-- Embedding of `IndicesSource::get_primitives_type` (src/src/index/mod.rs,
lines 94-101): matches on the four variants and returns the stored
`primitives` field. -/
def IndicesSource.get_primitives_type {β : Type} : IndicesSource β → PrimitiveType
  | .IndexBuffer _ _ primitives => primitives
  | .MultidrawArray _ primitives => primitives
  | .MultidrawElement _ _ _ primitives => primitives
  | .NoIndices primitives => primitives

/-- Embedding of the `NoIndices` marker struct (src/src/index/mod.rs, line 185),
a tuple struct whose single positional field is a `PrimitiveType`. -/
structure NoIndices where
  fst : PrimitiveType
deriving DecidableEq, Repr

/-- Embedding of `impl From<NoIndices> for IndicesSource` (src/src/index/mod.rs,
lines 187-194): conversion by value. -/
def NoIndices.into {β : Type} (marker : NoIndices) : IndicesSource β :=
  IndicesSource.NoIndices marker.fst

/-- Embedding of `impl From<&NoIndices> for IndicesSource` (src/src/index/mod.rs,
lines 196-203): conversion through a shared reference, which reads the same
marker value. -/
def NoIndices.intoByRef {β : Type} (marker : NoIndices) : IndicesSource β :=
  IndicesSource.NoIndices marker.fst

/-- Modelled from the spec: the GPU buffer resource (`BufferViewAny`) is an
out-of-scope collaborator (spec sections 1, 6); it exposes its byte size and an
unsafe device-to-host read that returns the byte sequence, or an absent result
when the backend cannot perform the read. A byte is a `Nat` here; no claim
depends on byte width. -/
structure BufferViewAny where
  get_size : Nat
  read_if_supported : Option (List Nat)
deriving DecidableEq, Repr

/-- Modelled from the spec: pixel-format decoding (`ClientFormat`) is out of
scope (spec section 1); the format is an opaque tag stored by `store_infos` and
returned unchanged in the raw image. -/
structure ClientFormat where
  code : Nat
deriving DecidableEq, Repr

/-- Embedding of `PixelBuffer<T>` (src/src/pixel_buffer.rs, lines 22-27): one
owned buffer plus deferred optional dimensions and format. The `PhantomData`
marker carries no data and is dropped. -/
structure PixelBuffer where
  buffer : BufferViewAny
  dimensions : Option (Nat × Nat)
  format : Option ClientFormat
deriving DecidableEq, Repr

/-- Embedding of `PixelBuffer::new_empty` (src/src/pixel_buffer.rs, lines
31-39): the facade allocation `BufferView::empty(facade, PixelPackBuffer,
capacity, false)` is an external collaborator, modelled as a function from the
requested byte capacity to the allocated buffer; dimensions and format start
unset. -/
def PixelBuffer.new_empty (facade : Nat → BufferViewAny) (capacity : Nat) : PixelBuffer :=
  { buffer := facade capacity, dimensions := none, format := none }

/-- Embedding of `PixelBuffer::get_size` (src/src/pixel_buffer.rs, lines
42-44): forwards to the buffer. -/
def PixelBuffer.get_size (b : PixelBuffer) : Nat :=
  b.buffer.get_size

/-- Embedding of `RawImage2d` as constructed by `read_if_supported`
(src/src/pixel_buffer.rs, lines 80-85): the value handed to the sink conversion
`Texture2dDataSink::from_raw`. -/
structure RawImage2d where
  data : List Nat
  width : Nat
  height : Nat
  format : ClientFormat
deriving DecidableEq, Repr

/-- Outcome of a call that may panic: either a panic with the panic message, or
a normal return. -/
inductive ReadResult (α : Type) where
  | panicked (msg : String)
  | ok (val : Option α)
deriving DecidableEq, Repr

/-- Panic message of the two `expect` calls in `read_if_supported`
(src/src/pixel_buffer.rs, lines 78 and 84). -/
def emptyMsg : String :=
  "The pixel buffer is empty"

/-- Embedding of `PixelBuffer::read_if_supported` (src/src/pixel_buffer.rs,
lines 72-88) up to the external sink conversion: first the unsafe buffer read
(returning `None` from the whole function when absent), then
`self.dimensions.expect(...)`, then construction of the raw image whose
`format` field is `self.format.expect(...)`. Each `expect` on an unset field is
a panic. -/
def PixelBuffer.read_if_supported (b : PixelBuffer) : ReadResult RawImage2d :=
  match b.buffer.read_if_supported with
  | none => ReadResult.ok none
  | some data =>
    match b.dimensions with
    | none => ReadResult.panicked emptyMsg
    | some dimensions =>
      match b.format with
      | none => ReadResult.panicked emptyMsg
      | some format =>
        ReadResult.ok (some { data := data, width := dimensions.1,
                              height := dimensions.2, format := format })

/-- Embedding of the final line of `read_if_supported`
(src/src/pixel_buffer.rs, line 87): the raw image is handed to the external
sink conversion `Texture2dDataSink::from_raw`, kept abstract as `from_raw`. -/
def PixelBuffer.read_into {T : Type} (from_raw : RawImage2d → T) (b : PixelBuffer) :
    ReadResult T :=
  match b.read_if_supported with
  | ReadResult.panicked m => ReadResult.panicked m
  | ReadResult.ok none => ReadResult.ok none
  | ReadResult.ok (some img) => ReadResult.ok (some (from_raw img))

/-- Embedding of the free function `store_infos` (src/src/pixel_buffer.rs,
lines 101-104): sets both deferred fields, touching nothing else. -/
def store_infos (b : PixelBuffer) (dimensions : Nat × Nat) (format : ClientFormat) :
    PixelBuffer :=
  { b with dimensions := some dimensions, format := some format }

/-- Fresh pixel buffer whose backend cannot perform the device-to-host read;
`store_infos` was never called on it. -/
def pbNoRead : PixelBuffer :=
  PixelBuffer.new_empty (fun c => { get_size := c, read_if_supported := none }) 4096

/-- Fresh pixel buffer whose backend read succeeds with three bytes;
`store_infos` was never called on it. -/
def pbReadable : PixelBuffer :=
  PixelBuffer.new_empty (fun c => { get_size := c, read_if_supported := some [7, 8, 9] }) 3

/-- Extension record with every flag clear. -/
def noExtensions : Extensions :=
  { gl_arb_geometry_shader4 := false, gl_ext_geometry_shader4 := false,
    gl_ext_geometry_shader := false, gl_arb_tessellation_shader := false }

/-- Capability source reporting desktop GL version (3,0) and no extensions. -/
def capsGl30 : Capabilities :=
  { get_version := { api := Api.Gl, major := 3, minor := 0 },
    get_extensions := noExtensions }

/-- Capability source reporting desktop GL version (2,1) and no extensions. -/
def capsGl21 : Capabilities :=
  { get_version := { api := Api.Gl, major := 2, minor := 1 },
    get_extensions := noExtensions }

/-- C1: for every adjacency primitive variant and every capability source,
`is_supported` is true iff the reported version is at least (3,0) or at least
one of the three named geometry-shader extensions is present; in particular
LineStripAdjacency is supported under version (3,0) and unsupported under
version (2,1) with no extensions. -/
theorem adjacency_is_supported_iff :
    (∀ caps : Capabilities,
      (PrimitiveType.LinesListAdjacency.is_supported caps = true ↔
        specAdjacencySupported caps) ∧
      (PrimitiveType.LineStripAdjacency.is_supported caps = true ↔
        specAdjacencySupported caps) ∧
      (PrimitiveType.TrianglesListAdjacency.is_supported caps = true ↔
        specAdjacencySupported caps) ∧
      (PrimitiveType.TriangleStripAdjacency.is_supported caps = true ↔
        specAdjacencySupported caps)) ∧
    PrimitiveType.LineStripAdjacency.is_supported capsGl30 = true ∧
    PrimitiveType.LineStripAdjacency.is_supported capsGl21 = false := by
  refine ⟨fun caps => ?_, by decide, by decide⟩
  refine ⟨?_, ?_, ?_, ?_⟩ <;>
    simp [PrimitiveType.is_supported, specAdjacencySupported, Bool.or_eq_true, or_assoc]

/-- C4: for every capability source and every patch size, `is_supported` of
`Patches` is true iff the reported version is at least (4,0) or the
tessellation-shader extension is present, and the result does not depend on
`vertices_per_patch`. -/
theorem patches_is_supported_iff :
    ∀ (caps : Capabilities) (n : Nat),
      ((PrimitiveType.Patches n).is_supported caps = true ↔ specPatchesSupported caps) ∧
      ∀ m : Nat, (PrimitiveType.Patches n).is_supported caps =
        (PrimitiveType.Patches m).is_supported caps := by
  intro caps n
  constructor
  · simp [PrimitiveType.is_supported, specPatchesSupported, Bool.or_eq_true]
  · intro m
    rfl

/-- C8: every baseline (non-adjacency, non-patch) primitive variant is supported
under every capability source. -/
theorem baseline_always_supported :
    ∀ caps : Capabilities,
      PrimitiveType.Points.is_supported caps = true ∧
      PrimitiveType.LinesList.is_supported caps = true ∧
      PrimitiveType.LineStrip.is_supported caps = true ∧
      PrimitiveType.LineLoop.is_supported caps = true ∧
      PrimitiveType.TrianglesList.is_supported caps = true ∧
      PrimitiveType.TriangleStrip.is_supported caps = true ∧
      PrimitiveType.TriangleFan.is_supported caps = true := by
  intro caps
  exact ⟨rfl, rfl, rfl, rfl, rfl, rfl, rfl⟩

/-- C9: `get_size` returns exactly 1, 2 and 4 bytes for U8, U16 and U32, and,
being a pure function of its argument, yields the same result on repeated
calls. -/
theorem index_type_get_size_values :
    IndexType.U8.get_size = 1 ∧ IndexType.U16.get_size = 2 ∧
    IndexType.U32.get_size = 4 ∧
    ∀ t : IndexType, t.get_size = t.get_size := by
  exact ⟨rfl, rfl, rfl, fun t => rfl⟩

/-- C6: `get_primitives_type` on each of the four `IndicesSource` variants
returns exactly the `primitives` value the variant was constructed with; as a
pure Lean function it has no side effect. -/
theorem get_primitives_type_roundtrip :
    ∀ (β : Type) (buf com idx : β) (dt : IndexType) (p : PrimitiveType),
      (IndicesSource.IndexBuffer buf dt p).get_primitives_type = p ∧
      (IndicesSource.MultidrawArray buf p).get_primitives_type = p ∧
      (IndicesSource.MultidrawElement com idx dt p).get_primitives_type = p ∧
      ((IndicesSource.NoIndices p : IndicesSource β)).get_primitives_type = p := by
  intro β buf com idx dt p
  exact ⟨rfl, rfl, rfl, rfl⟩

/-- C10: converting the marker `NoIndices p` into an `IndicesSource`, by value
or through a reference, yields exactly the variant `NoIndices {primitives: p}`. -/
theorem no_indices_into_indices_source :
    ∀ (β : Type) (p : PrimitiveType),
      (NoIndices.into ⟨p⟩ : IndicesSource β) = IndicesSource.NoIndices p ∧
      (NoIndices.intoByRef ⟨p⟩ : IndicesSource β) = IndicesSource.NoIndices p := by
  intro β p
  exact ⟨rfl, rfl⟩

/-- C2 counterexample: a pixel buffer on which `store_infos` was never called
(dimensions and format both unset) whose backend cannot perform the read:
`read_if_supported` returns through the optional-result path (`None`) and does
not panic, so the claim's "regardless of backend capabilities" fails. -/
theorem read_before_store_counterexample :
    pbNoRead.dimensions = none ∧ pbNoRead.format = none ∧
    pbNoRead.read_if_supported = ReadResult.ok none :=
  ⟨rfl, rfl, rfl⟩

/-- C2 amended: on a pixel buffer whose metadata was never stored (dimensions
unset, as `new_empty` leaves it), `read_if_supported` panics whenever the
backend read succeeds; when the backend read is unsupported it instead returns
`None` through the optional-result path. -/
theorem read_before_store_panics (b : PixelBuffer) (h : b.dimensions = none) :
    (∀ bytes : List Nat, b.buffer.read_if_supported = some bytes →
      b.read_if_supported = ReadResult.panicked emptyMsg) ∧
    (b.buffer.read_if_supported = none → b.read_if_supported = ReadResult.ok none) := by
  constructor
  · intro bytes hb
    simp [PixelBuffer.read_if_supported, hb, h]
  · intro hb
    simp [PixelBuffer.read_if_supported, hb]

/-- C2 amended, witness: on a concrete never-stored buffer whose backend read
yields three bytes, `read_if_supported` panics with the source's message. -/
theorem read_before_store_panics_witness :
    pbReadable.dimensions = none ∧
    pbReadable.read_if_supported = ReadResult.panicked emptyMsg :=
  ⟨rfl, (read_before_store_panics pbReadable rfl).1 [7, 8, 9] rfl⟩

/-- C3: the backend-capability check runs before the staged-metadata check: if
the buffer's device-to-host read reports unsupported, `read_if_supported`
returns `None` without panicking, for every pixel buffer, including one whose
dimensions and format were never stored. -/
theorem capability_check_runs_first (b : PixelBuffer)
    (h : b.buffer.read_if_supported = none) :
    b.read_if_supported = ReadResult.ok none := by
  simp [PixelBuffer.read_if_supported, h]

/-- C3 witness: on a concrete never-stored buffer whose backend read is
unsupported, `read_if_supported` returns `None`. -/
theorem capability_check_runs_first_witness :
    pbNoRead.read_if_supported = ReadResult.ok none :=
  capability_check_runs_first pbNoRead rfl

/-- C5: `new_empty` leaves dimensions and format both unset, `store_infos` sets
both together while leaving the buffer untouched, and in both states the
dimensions-set-iff-format-set invariant holds. In this embedding `store_infos`
is the only operation producing a modified `PixelBuffer`; `get_size`,
`read_if_supported` and `read_into` consume the state without returning a new
one, mirroring their `&self` receivers. -/
theorem pixel_buffer_metadata_invariant :
    (∀ (f : Nat → BufferViewAny) (c : Nat),
      (PixelBuffer.new_empty f c).dimensions = none ∧
      (PixelBuffer.new_empty f c).format = none) ∧
    (∀ (b : PixelBuffer) (d : Nat × Nat) (fmt : ClientFormat),
      (store_infos b d fmt).dimensions = some d ∧
      (store_infos b d fmt).format = some fmt ∧
      (store_infos b d fmt).buffer = b.buffer) ∧
    (∀ (f : Nat → BufferViewAny) (c : Nat),
      ((PixelBuffer.new_empty f c).dimensions.isSome ↔
        (PixelBuffer.new_empty f c).format.isSome)) ∧
    (∀ (b : PixelBuffer) (d : Nat × Nat) (fmt : ClientFormat),
      ((store_infos b d fmt).dimensions.isSome ↔
        (store_infos b d fmt).format.isSome)) := by
  refine ⟨fun f c => ⟨rfl, rfl⟩, fun b d fmt => ⟨rfl, rfl, rfl⟩,
    fun f c => ?_, fun b d fmt => ?_⟩ <;>
    simp [PixelBuffer.new_empty, store_infos]

/-- C7: after `store_infos (w, h) fmt`, a successful backend read makes
`read_if_supported` return a raw image carrying exactly width `w`, height `h`
and format `fmt`, wrapping the bytes read from the buffer; the sink conversion
receives exactly that raw image. -/
theorem read_after_store_infos (b : PixelBuffer) (w h : Nat) (fmt : ClientFormat)
    (bytes : List Nat) (hr : b.buffer.read_if_supported = some bytes) :
    (store_infos b (w, h) fmt).read_if_supported =
      ReadResult.ok (some { data := bytes, width := w, height := h, format := fmt }) ∧
    ∀ (T : Type) (from_raw : RawImage2d → T),
      (store_infos b (w, h) fmt).read_into from_raw =
        ReadResult.ok (some (from_raw
          { data := bytes, width := w, height := h, format := fmt })) := by
  have h1 : (store_infos b (w, h) fmt).read_if_supported =
      ReadResult.ok (some { data := bytes, width := w, height := h, format := fmt }) := by
    simp [store_infos, PixelBuffer.read_if_supported, hr]
  refine ⟨h1, fun T from_raw => ?_⟩
  simp [PixelBuffer.read_into, h1]

/-- C7 witness: storing dimensions (2,5) and format tag 1 on a concrete buffer
whose read yields bytes [7, 8, 9] produces exactly that raw image. -/
theorem read_after_store_infos_witness :
    (store_infos pbReadable (2, 5) { code := 1 }).read_if_supported =
      ReadResult.ok (some { data := [7, 8, 9], width := 2, height := 5,
                            format := { code := 1 } }) :=
  (read_after_store_infos pbReadable 2 5 { code := 1 } [7, 8, 9] rfl).1

end Glium
